import Mathlib

/-!
Verification of `scripts/evaluate_swebench_success_rate.py`.

The script has two parts:
* `get_metrics_from_summary`, which scans the text of a summary file with the
  regular expression `Resolved:\s*(\d+)\s*/\s*(\d+)\s*(\d+\.\d+)%` (Python
  `re.search`: leftmost match, greedy quantifiers with backtracking) and, on a
  match, builds the dict
  `\x7bresolved_count: int(g1), resolved_total: int(g2), success_rate: float(g3)\x7d`,
  otherwise the empty dict;
* `main`, which resolves `<experiment_dir>/artifacts/summary_stats.md`, errors
  with exit status 1 when the file is missing or when the extractor returns an
  empty dict, and on success prints a header, a formatted success-rate line and
  an indented JSON dump of the metrics, exiting with status 0.

Modelling choices:
* text is `List Char`; Python's `\d` and `\s` are modelled by their ASCII
  classes (the claims only involve ASCII text);
* the regex is embedded as an explicit backtracking matcher: every greedy
  quantifier enumerates its candidate splits longest first (`starSplits`,
  `plusSplits`) and the continuation is tried on each in order (`firstSome`),
  which is exactly Python's leftmost-greedy backtracking search order;
* Python floats are modelled as exact rationals (`float(g3)` becomes the exact
  decimal value of the scanned digits);
* the dict is an insertion-ordered association list, Python dict subscripting
  is `getVal` (raising `KeyError` = `none`);
* the filesystem is a map from path strings to optional file contents, and
  `main` returns `none` exactly when the Python code would raise an uncaught
  `KeyError`; otherwise it returns the exit status together with the list of
  `print` payloads in order (each `print` appends one newline).
-/

namespace EvalSweBench

/-- ASCII version of Python's `\d` character class. -/
def isDigitC (c : Char) : Bool := 48 ≤ c.toNat && c.toNat ≤ 57

/-- ASCII version of Python's `\s` character class: space, `\t`, `\n`, `\v`,
`\f`, `\r` (codepoints 32 and 9–13). -/
def isSpaceC (c : Char) : Bool := c.toNat = 32 || (9 ≤ c.toNat && c.toNat ≤ 13)

/-- All ways a greedy `class*` can split the input into a matched run of
class characters followed by the rest, longest match first — the order in
which a backtracking regex engine tries them. -/
def starSplits (p : Char → Bool) : List Char → List (List Char × List Char)
  | [] => [([], [])]
  | c :: cs =>
    if p c then
      ((starSplits p cs).map (fun mr => (c :: mr.1, mr.2))) ++ [([], c :: cs)]
    else [([], c :: cs)]

/-- All ways a greedy `class+` can split the input, longest match first. -/
def plusSplits (p : Char → Bool) : List Char → List (List Char × List Char)
  | [] => []
  | c :: cs =>
    if p c then (starSplits p cs).map (fun mr => (c :: mr.1, mr.2)) else []

/-- Try the continuation on each candidate in order, returning the first
success: the backtracking search through a quantifier's alternatives. -/
def firstSome (f : α → Option β) : List α → Option β
  | [] => none
  | a :: l =>
    match f a with
    | some b => some b
    | none => firstSome f l

/-- Match a literal character sequence at the front of the input, returning
the rest of the input on success. -/
def litStrip : List Char → List Char → Option (List Char)
  | [], cs => some cs
  | _ :: _, [] => none
  | l :: ls, c :: cs => if c = l then litStrip ls cs else none

/-- The three capture groups of the `Resolved:` regex; the third group
`(\d+\.\d+)` is kept as its integer-part and fraction-part digit runs. -/
structure RGroups where
  g1 : List Char
  g2 : List Char
  g3i : List Char
  g3f : List Char
deriving DecidableEq

/-- Stage of the matcher after group 3's fraction digits: the literal `%`. -/
def afterG3f (g1 g2 g3i g3f : List Char) : List Char → Option RGroups
  | '%' :: _ => some ⟨g1, g2, g3i, g3f⟩
  | _ => none

/-- Stage after the decimal point: the fraction digits `\d+` of group 3. -/
def afterDot (g1 g2 g3i r10 : List Char) : Option RGroups :=
  firstSome (fun mr => afterG3f g1 g2 g3i mr.1 mr.2) (plusSplits isDigitC r10)

/-- Stage after group 3's integer digits: the literal `.`. -/
def afterG3i (g1 g2 g3i : List Char) : List Char → Option RGroups
  | '.' :: r10 => afterDot g1 g2 g3i r10
  | _ => none

/-- Stage after the whitespace following group 2: group 3's integer digits. -/
def afterWs4 (g1 g2 r8 : List Char) : Option RGroups :=
  firstSome (fun mr => afterG3i g1 g2 mr.1 mr.2) (plusSplits isDigitC r8)

/-- Stage after group 2: the `\s*` between group 2 and group 3. -/
def afterG2 (g1 g2 r7 : List Char) : Option RGroups :=
  firstSome (fun mr => afterWs4 g1 g2 mr.2) (starSplits isSpaceC r7)

/-- Stage after the whitespace following `/`: group 2's digits `(\d+)`. -/
def afterWs3 (g1 r6 : List Char) : Option RGroups :=
  firstSome (fun mr => afterG2 g1 mr.1 mr.2) (plusSplits isDigitC r6)

/-- Stage after the `/`: the `\s*` between `/` and group 2. -/
def afterSlash (g1 r5 : List Char) : Option RGroups :=
  firstSome (fun mr => afterWs3 g1 mr.2) (starSplits isSpaceC r5)

/-- Stage after the whitespace following group 1: the literal `/`. -/
def afterWs2 (g1 : List Char) : List Char → Option RGroups
  | '/' :: r5 => afterSlash g1 r5
  | _ => none

/-- Stage after group 1: the `\s*` between group 1 and `/`. -/
def afterG1 (g1 r3 : List Char) : Option RGroups :=
  firstSome (fun mr => afterWs2 g1 mr.2) (starSplits isSpaceC r3)

/-- Stage after the literal's whitespace: group 1's digits `(\d+)`. -/
def afterWs1 (r2 : List Char) : Option RGroups :=
  firstSome (fun mr => afterG1 mr.1 mr.2) (plusSplits isDigitC r2)

/-- Stage after the literal `Resolved:`: the first `\s*`. -/
def afterLit (r1 : List Char) : Option RGroups :=
  firstSome (fun mr => afterWs1 mr.2) (starSplits isSpaceC r1)

/-- Attempt to match `Resolved:\s*(\d+)\s*/\s*(\d+)\s*(\d+\.\d+)%` at the
start of the input, with Python's greedy backtracking order. -/
def matchResolvedAt (cs : List Char) : Option RGroups :=
  match litStrip "Resolved:".toList cs with
  | none => none
  | some r1 => afterLit r1

/-- `re.search`: try the pattern at each start position from the left,
returning the leftmost match. -/
def reSearch (cs : List Char) : Option RGroups :=
  match matchResolvedAt cs with
  | some g => some g
  | none =>
    match cs with
    | [] => none
    | _ :: rest => reSearch rest

/-- Python `int` of a run of decimal digits. -/
def digitsToNat (ds : List Char) : Nat :=
  ds.foldl (fun a c => 10 * a + (c.toNat - 48)) 0

/-- Python `float` of `<intdigits>.<fracdigits>`, as an exact rational:
the value `zi + zf / 10 ^ |zf|`, written as a single fraction so that the
kernel can evaluate it. -/
def decVal (zi zf : List Char) : ℚ :=
  mkRat (digitsToNat zi * 10 ^ zf.length + digitsToNat zf) (10 ^ zf.length)

/-- A Python numeric value as stored in the metrics dict: `int` or `float`
(floats modelled as exact rationals). -/
inductive PyVal where
  | int : Nat → PyVal
  | float : ℚ → PyVal
deriving DecidableEq

/-- The metrics dict: an insertion-ordered association list. -/
abbrev Metrics := List (String × PyVal)

/-- Dict lookup: `some` the first value stored under the key, `none` if the
key is absent (Python subscripting would raise `KeyError`). -/
def getVal (k : String) : Metrics → Option PyVal
  | [] => none
  | (k2, v) :: rest => if k2 = k then some v else getVal k rest

/-- `k in metrics` for a Python dict. -/
def hasKey (k : String) (m : Metrics) : Bool := (getVal k m).isSome

/-- `get_metrics_from_summary`, as a function of the file's text content
(the Python function receives the path and reads the text itself; file
access is modelled in `main`). -/
def get_metrics_from_summary (content : List Char) : Metrics :=
  match reSearch content with
  | some g =>
      [("resolved_count", PyVal.int (digitsToNat g.g1)),
       ("resolved_total", PyVal.int (digitsToNat g.g2)),
       ("success_rate", PyVal.float (decVal g.g3i g.g3f))]
  | none => []

/-- Decimal digits of a natural number, most significant first (the `fuel`
argument only drives termination and is set to the number itself). -/
def natDigitsGo : Nat → Nat → List Char → List Char
  | 0, _, acc => acc
  | fuel + 1, n, acc =>
    let d := Char.ofNat (48 + n % 10)
    if n < 10 then d :: acc else natDigitsGo fuel (n / 10) (d :: acc)

/-- Render a natural number in decimal, as Python `str` does for `int`. -/
def natStr (n : Nat) : String := String.mk (natDigitsGo (n + 1) n [])

/-- Smallest exponent `k` with `den ∣ 10 ^ k` (defaulting to `den`; only ever
used on denominators dividing a power of 10). -/
def decExp (den : Nat) : Nat :=
  ((List.range (den + 1)).find? (fun k => 10 ^ k % den = 0)).getD den

/-- Drop trailing `'0'` characters but keep at least one character. -/
def trimZeros (ds : List Char) : List Char :=
  match (ds.reverse.dropWhile (fun c => c = '0')) with
  | [] => ['0']
  | l => l.reverse

/-- Left-pad a digit run with `'0'` to the given width. -/
def padZeros (w : Nat) (ds : List Char) : List Char :=
  List.replicate (w - ds.length) '0' ++ ds

/-- Python `repr` of a nonnegative float with a finite decimal expansion:
integer part, `.`, fraction with trailing zeros removed (`50.0`, `30.5`).
This matches CPython's shortest-repr for the short decimals arising here.
The numerator over `10 ^ k` is computed in `Nat` arithmetic. -/
def floatRepr (q : ℚ) : String :=
  let k := decExp q.den
  let n := q.num.natAbs * (10 ^ k / q.den)
  let ip := n / 10 ^ k
  let fp := n % 10 ^ k
  natStr ip ++ "." ++ String.mk (trimZeros (padZeros k (natStr fp).toList))

/-- Division of `a` by `d` rounded to the nearest integer, ties to even: the
rounding used by Python's fixed-point float formatting. -/
def halfEvenDiv (a : ℤ) (d : ℕ) : ℤ :=
  let f := Int.ediv a d
  let r := a - f * d
  if 2 * r < (d : ℤ) then f
  else if (d : ℤ) < 2 * r then f + 1
  else if f % 2 = 0 then f else f + 1

/-- Python's `format(x, ".2f")` for a nonnegative value: the value times 100
(computed as the integer fraction `100 * num / den`) rounded half-to-even,
rendered with exactly two fraction digits. -/
def fmt2 (q : ℚ) : String :=
  let n := (halfEvenDiv (100 * q.num) q.den).natAbs
  natStr (n / 100) ++ "." ++ String.mk (padZeros 2 (natStr (n % 100)).toList)

/-- `str()` of a metrics value, as interpolated by the f-string. -/
def pyStr : PyVal → String
  | PyVal.int n => natStr n
  | PyVal.float q => floatRepr q

/-- `f"\x7bv:.2f\x7d"` of a metrics value. -/
def pyFmt2 : PyVal → String
  | PyVal.int n => fmt2 (n : ℚ)
  | PyVal.float q => fmt2 q

/-- A JSON number as emitted by `json.dumps` for a metrics value. -/
def jsonNum : PyVal → String
  | PyVal.int n => natStr n
  | PyVal.float q => floatRepr q

/-- One `"key": value` entry of the indented JSON dump. -/
def jsonEntry (kv : String × PyVal) : String :=
  "  \"" ++ kv.1 ++ "\": " ++ jsonNum kv.2

/-- Join strings with a separator. -/
def joinSep (sep : String) : List String → String
  | [] => ""
  | [s] => s
  | s :: l => s ++ sep ++ joinSep sep l

/-- `json.dumps(metrics, indent=2)`. -/
def jsonDumps (m : Metrics) : String :=
  match m with
  | [] => "\x7b\x7d"
  | _ => "\x7b\n" ++ joinSep ",\n" (m.map jsonEntry) ++ "\n\x7d"

/-- The result of a run of the script: exit status and, in order, the payload
of each `print` call (each `print` appends one newline to its payload). -/
structure ProcResult where
  exitCode : Nat
  outputs : List String
deriving DecidableEq

/-- `Path(experiment_dir) / "artifacts" / "summary_stats.md"`, rendered as a
string (`Path`'s normalisation of unusual inputs is not modelled). -/
def summaryPath (dir : String) : String := dir ++ "/artifacts/summary_stats.md"

/-- The `main` command, as a function of the experiment directory and of the
filesystem (a map from paths to optional text contents). `none` models an
uncaught `KeyError` from a dict subscript; `some` carries the exit status and
the printed payloads. -/
def main (experiment_dir : String) (fs : String → Option (List Char)) :
    Option ProcResult :=
  let p := summaryPath experiment_dir
  match fs p with
  | none => some ⟨1, ["Error: Summary file not found at " ++ p]⟩
  | some content =>
    let metrics := get_metrics_from_summary content
    if metrics.isEmpty then
      some ⟨1, ["Error: Could not parse any metrics from " ++ p]⟩
    else
      if hasKey "success_rate" metrics then
        match getVal "success_rate" metrics, getVal "resolved_count" metrics,
            getVal "resolved_total" metrics with
        | some r, some c, some t =>
          some ⟨0, ["SWE-bench Evaluation Results:",
                    "  Success Rate: " ++ pyFmt2 r ++ "% (" ++ pyStr c ++ "/" ++
                      pyStr t ++ ")",
                    "\nMetrics (JSON):", jsonDumps metrics]⟩
        | _, _, _ => none
      else
        some ⟨0, ["SWE-bench Evaluation Results:",
                  "\nMetrics (JSON):", jsonDumps metrics]⟩

/-- The canonical text of a `Resolved: X / Y Z%` line, with `Z = zi.zf`. -/
def resolvedShape (x y zi zf : List Char) : List Char :=
  "Resolved: ".toList ++ x ++ " / ".toList ++ y ++ [' '] ++ zi ++
    ['.'] ++ zf ++ ['%']

/-- The first character of `rest`, when there is one, is outside the class
`p`: the condition under which a greedy quantifier keeps its longest match. -/
def headNotP (p : Char → Bool) : List Char → Prop
  | [] => True
  | c :: _ => p c = false

@[simp] theorem headNotP_nil (p : Char → Bool) : headNotP p [] := trivial

@[simp] theorem headNotP_cons (p : Char → Bool) (c : Char) (r : List Char) :
    headNotP p (c :: r) ↔ p c = false := Iff.rfl

theorem not_space_of_digit (c : Char) (h : isDigitC c = true) :
    isSpaceC c = false := by
  simp only [isDigitC, Bool.and_eq_true, decide_eq_true_eq] at h
  simp only [isSpaceC, Bool.or_eq_false_iff, Bool.and_eq_false_iff,
    decide_eq_false_iff_not]
  omega

theorem headNotP_space_of_digits (s rest : List Char) (hne : s ≠ [])
    (hd : ∀ c ∈ s, isDigitC c = true) : headNotP isSpaceC (s ++ rest) := by
  cases s with
  | nil => exact absurd rfl hne
  | cons a s' =>
    exact (headNotP_cons isSpaceC a (s' ++ rest)).mpr
      (not_space_of_digit a (hd a (by simp)))

theorem starSplits_head (p : Char → Bool) (s rest : List Char)
    (hs : ∀ c ∈ s, p c = true) (hr : headNotP p rest) :
    ∃ t, starSplits p (s ++ rest) = (s, rest) :: t := by
  induction s with
  | nil =>
    cases rest with
    | nil => exact ⟨[], rfl⟩
    | cons c cs =>
      have hc : p c = false := hr
      exact ⟨[], by simp [starSplits, hc]⟩
  | cons a s' ih =>
    have ha : p a = true := hs a (by simp)
    obtain ⟨t, ht⟩ := ih (fun c hc => hs c (by simp [hc]))
    refine ⟨(t.map fun mr => (a :: mr.1, mr.2)) ++ [([], a :: (s' ++ rest))], ?_⟩
    simp [starSplits, ha, ht]

theorem firstSome_cons_some (f : α → Option β) (a : α) (l : List α) (b : β)
    (h : f a = some b) : firstSome f (a :: l) = some b := by
  simp [firstSome, h]

theorem firstSome_star (p : Char → Bool) (f : List Char × List Char → Option β)
    (s rest : List Char) (b : β) (hs : ∀ c ∈ s, p c = true)
    (hr : headNotP p rest) (hb : f (s, rest) = some b) :
    firstSome f (starSplits p (s ++ rest)) = some b := by
  obtain ⟨t, ht⟩ := starSplits_head p s rest hs hr
  rw [ht]
  exact firstSome_cons_some f (s, rest) t b hb

theorem plusSplits_head (p : Char → Bool) (a : Char) (s' rest : List Char)
    (ha : p a = true) (hs : ∀ c ∈ s', p c = true) (hr : headNotP p rest) :
    ∃ t, plusSplits p ((a :: s') ++ rest) = (a :: s', rest) :: t := by
  obtain ⟨t, ht⟩ := starSplits_head p s' rest hs hr
  exact ⟨t.map fun mr => (a :: mr.1, mr.2), by simp [plusSplits, ha, ht]⟩

theorem firstSome_plus (p : Char → Bool) (f : List Char × List Char → Option β)
    (s rest : List Char) (b : β) (hne : s ≠ []) (hs : ∀ c ∈ s, p c = true)
    (hr : headNotP p rest) (hb : f (s, rest) = some b) :
    firstSome f (plusSplits p (s ++ rest)) = some b := by
  cases s with
  | nil => exact absurd rfl hne
  | cons a s' =>
    obtain ⟨t, ht⟩ := plusSplits_head p a s' rest (hs a (by simp))
      (fun c hc => hs c (by simp [hc])) hr
    rw [ht]
    exact firstSome_cons_some f (a :: s', rest) t b hb

theorem resolvedShape_append (x y zi zf post : List Char) :
    resolvedShape x y zi zf ++ post =
      'R' :: 'e' :: 's' :: 'o' :: 'l' :: 'v' :: 'e' :: 'd' :: ':' :: ' ' ::
        (x ++ ' ' :: '/' :: ' ' ::
          (y ++ ' ' :: (zi ++ '.' :: (zf ++ '%' :: post)))) := by
  have h1 : "Resolved: ".toList = ['R', 'e', 's', 'o', 'l', 'v', 'e', 'd',
    ':', ' '] := rfl
  have h2 : " / ".toList = [' ', '/', ' '] := rfl
  rw [resolvedShape, h1, h2]
  simp [List.append_assoc]

theorem litStrip_resolved (r : List Char) :
    litStrip "Resolved:".toList
      ('R' :: 'e' :: 's' :: 'o' :: 'l' :: 'v' :: 'e' :: 'd' :: ':' :: r) =
      some r := rfl

theorem mem_singleton_space (c : Char) (hc : c ∈ [' ']) : isSpaceC c = true := by
  simp only [List.mem_singleton] at hc
  subst hc
  decide

theorem matchResolvedAt_shape (x y zi zf post : List Char)
    (hx : x ≠ []) (hxd : ∀ c ∈ x, isDigitC c = true)
    (hy : y ≠ []) (hyd : ∀ c ∈ y, isDigitC c = true)
    (hzi : zi ≠ []) (hzid : ∀ c ∈ zi, isDigitC c = true)
    (hzf : zf ≠ []) (hzfd : ∀ c ∈ zf, isDigitC c = true) :
    matchResolvedAt (resolvedShape x y zi zf ++ post) =
      some ⟨x, y, zi, zf⟩ := by
  have h9 : afterG3f x y zi zf ('%' :: post) = some ⟨x, y, zi, zf⟩ := rfl
  have h8 : afterDot x y zi (zf ++ '%' :: post) = some ⟨x, y, zi, zf⟩ :=
    firstSome_plus isDigitC _ zf ('%' :: post) _ hzf hzfd
      ((headNotP_cons isDigitC '%' post).mpr (by decide)) h9
  have h7 : afterG3i x y zi ('.' :: (zf ++ '%' :: post)) =
      some ⟨x, y, zi, zf⟩ := h8
  have h6 : afterWs4 x y (zi ++ '.' :: (zf ++ '%' :: post)) =
      some ⟨x, y, zi, zf⟩ :=
    firstSome_plus isDigitC _ zi ('.' :: (zf ++ '%' :: post)) _ hzi hzid
      ((headNotP_cons isDigitC '.' _).mpr (by decide)) h7
  have h5 : afterG2 x y (' ' :: (zi ++ '.' :: (zf ++ '%' :: post))) =
      some ⟨x, y, zi, zf⟩ :=
    firstSome_star isSpaceC _ [' '] (zi ++ '.' :: (zf ++ '%' :: post)) _
      mem_singleton_space (headNotP_space_of_digits zi _ hzi hzid) h6
  have h4 : afterWs3 x (y ++ ' ' :: (zi ++ '.' :: (zf ++ '%' :: post))) =
      some ⟨x, y, zi, zf⟩ :=
    firstSome_plus isDigitC _ y (' ' :: (zi ++ '.' :: (zf ++ '%' :: post))) _
      hy hyd ((headNotP_cons isDigitC ' ' _).mpr (by decide)) h5
  have h3 : afterSlash x
      (' ' :: (y ++ ' ' :: (zi ++ '.' :: (zf ++ '%' :: post)))) =
      some ⟨x, y, zi, zf⟩ :=
    firstSome_star isSpaceC _ [' ']
      (y ++ ' ' :: (zi ++ '.' :: (zf ++ '%' :: post))) _
      mem_singleton_space (headNotP_space_of_digits y _ hy hyd) h4
  have h2 : afterWs2 x
      ('/' :: ' ' :: (y ++ ' ' :: (zi ++ '.' :: (zf ++ '%' :: post)))) =
      some ⟨x, y, zi, zf⟩ := h3
  have h1 : afterG1 x
      (' ' :: '/' :: ' ' :: (y ++ ' ' :: (zi ++ '.' :: (zf ++ '%' :: post)))) =
      some ⟨x, y, zi, zf⟩ :=
    firstSome_star isSpaceC _ [' ']
      ('/' :: ' ' :: (y ++ ' ' :: (zi ++ '.' :: (zf ++ '%' :: post)))) _
      mem_singleton_space ((headNotP_cons isSpaceC '/' _).mpr (by decide)) h2
  have h0 : afterWs1
      (x ++ ' ' :: '/' :: ' ' ::
        (y ++ ' ' :: (zi ++ '.' :: (zf ++ '%' :: post)))) =
      some ⟨x, y, zi, zf⟩ :=
    firstSome_plus isDigitC _ x
      (' ' :: '/' :: ' ' :: (y ++ ' ' :: (zi ++ '.' :: (zf ++ '%' :: post)))) _
      hx hxd ((headNotP_cons isDigitC ' ' _).mpr (by decide)) h1
  have hL : afterLit
      (' ' :: (x ++ ' ' :: '/' :: ' ' ::
        (y ++ ' ' :: (zi ++ '.' :: (zf ++ '%' :: post))))) =
      some ⟨x, y, zi, zf⟩ :=
    firstSome_star isSpaceC _ [' ']
      (x ++ ' ' :: '/' :: ' ' ::
        (y ++ ' ' :: (zi ++ '.' :: (zf ++ '%' :: post)))) _
      mem_singleton_space (headNotP_space_of_digits x _ hx hxd) h0
  rw [resolvedShape_append]
  simpa only [matchResolvedAt, litStrip_resolved] using hL

theorem reSearch_of_matchAt (cs : List Char) (g : RGroups)
    (h : matchResolvedAt cs = some g) : reSearch cs = some g := by
  cases cs with
  | nil => rw [reSearch, h]
  | cons c r => rw [reSearch, h]

theorem reSearch_some_of_drop (cs : List Char) (i : Nat) (g : RGroups)
    (h : matchResolvedAt (cs.drop i) = some g) :
    ∃ g₂, reSearch cs = some g₂ := by
  induction cs generalizing i with
  | nil =>
    refine ⟨g, reSearch_of_matchAt [] g ?_⟩
    simpa using h
  | cons c r ih =>
    cases hm : matchResolvedAt (c :: r) with
    | some g₂ => exact ⟨g₂, reSearch_of_matchAt (c :: r) g₂ hm⟩
    | none =>
      cases i with
      | zero =>
        rw [List.drop_zero, hm] at h
        cases h
      | succ i' =>
        obtain ⟨g₂, hg₂⟩ := ih i' (by simpa using h)
        refine ⟨g₂, ?_⟩
        rw [reSearch, hm]
        exact hg₂

theorem reSearch_none_iff (cs : List Char) :
    reSearch cs = none ↔ ∀ i, matchResolvedAt (cs.drop i) = none := by
  constructor
  · intro h i
    cases hm : matchResolvedAt (cs.drop i) with
    | none => rfl
    | some g =>
      obtain ⟨g₂, hg₂⟩ := reSearch_some_of_drop cs i g hm
      rw [h] at hg₂
      cases hg₂
  · intro h
    induction cs with
    | nil =>
      rw [reSearch]
      rw [show matchResolvedAt [] = none from rfl]
    | cons c r ih =>
      have h0 : matchResolvedAt (c :: r) = none := by simpa using h 0
      rw [reSearch, h0]
      exact ih (fun i => by simpa using h (i + 1))

theorem metrics_of_search_some (content : List Char) (g : RGroups)
    (h : reSearch content = some g) :
    get_metrics_from_summary content =
      [("resolved_count", PyVal.int (digitsToNat g.g1)),
       ("resolved_total", PyVal.int (digitsToNat g.g2)),
       ("success_rate", PyVal.float (decVal g.g3i g.g3f))] := by
  rw [get_metrics_from_summary, h]

theorem metrics_of_search_none (content : List Char)
    (h : reSearch content = none) : get_metrics_from_summary content = [] := by
  rw [get_metrics_from_summary, h]

theorem getVal_three_count (a b c : PyVal) :
    getVal "resolved_count"
      [("resolved_count", a), ("resolved_total", b), ("success_rate", c)] =
      some a := rfl

theorem getVal_three_total (a b c : PyVal) :
    getVal "resolved_total"
      [("resolved_count", a), ("resolved_total", b), ("success_rate", c)] =
      some b := rfl

theorem getVal_three_rate (a b c : PyVal) :
    getVal "success_rate"
      [("resolved_count", a), ("resolved_total", b), ("success_rate", c)] =
      some c := rfl

/-- C1: any text containing a line of the shape `Resolved: X / Y Z%` (X, Y
decimal digit runs, Z a float with at least one fractional digit) makes the
scan succeed, and the returned mapping carries exactly `resolved_count`,
`resolved_total` and `success_rate`, populated from the groups of the first
(leftmost) match; in particular when the text starts with such a line the
values are exactly the integers X and Y and the decimal value of Z. -/
theorem c1_first_match_populates_all_three
    (content pre post x y zi zf : List Char)
    (hx : x ≠ []) (hxd : ∀ c ∈ x, isDigitC c = true)
    (hy : y ≠ []) (hyd : ∀ c ∈ y, isDigitC c = true)
    (hzi : zi ≠ []) (hzid : ∀ c ∈ zi, isDigitC c = true)
    (hzf : zf ≠ []) (hzfd : ∀ c ∈ zf, isDigitC c = true)
    (hc : content = pre ++ (resolvedShape x y zi zf ++ post)) :
    (∃ g : RGroups, reSearch content = some g ∧
      get_metrics_from_summary content =
        [("resolved_count", PyVal.int (digitsToNat g.g1)),
         ("resolved_total", PyVal.int (digitsToNat g.g2)),
         ("success_rate", PyVal.float (decVal g.g3i g.g3f))]) ∧
    get_metrics_from_summary (resolvedShape x y zi zf ++ post) =
      [("resolved_count", PyVal.int (digitsToNat x)),
       ("resolved_total", PyVal.int (digitsToNat y)),
       ("success_rate", PyVal.float (decVal zi zf))] := by
  have hmatch := matchResolvedAt_shape x y zi zf post hx hxd hy hyd hzi hzid
    hzf hzfd
  constructor
  · have hdrop : content.drop pre.length = resolvedShape x y zi zf ++ post := by
      rw [hc]
      exact List.drop_left pre _
    obtain ⟨g, hg⟩ := reSearch_some_of_drop content pre.length ⟨x, y, zi, zf⟩
      (by rw [hdrop]; exact hmatch)
    exact ⟨g, hg, metrics_of_search_some content g hg⟩
  · rw [metrics_of_search_some _ _ (reSearch_of_matchAt _ _ hmatch)]

theorem c1_first_match_populates_all_three_witness :
    get_metrics_from_summary
        (resolvedShape ['1', '0'] ['2', '0'] ['5', '0'] ['0', '0'] ++ []) =
      [("resolved_count", PyVal.int (digitsToNat ['1', '0'])),
       ("resolved_total", PyVal.int (digitsToNat ['2', '0'])),
       ("success_rate", PyVal.float (decVal ['5', '0'] ['0', '0']))] ∧
    digitsToNat ['1', '0'] = 10 ∧ digitsToNat ['2', '0'] = 20 ∧
    decVal ['5', '0'] ['0', '0'] = 50 :=
  ⟨(c1_first_match_populates_all_three
      ([] ++ (resolvedShape ['1', '0'] ['2', '0'] ['5', '0'] ['0', '0'] ++ []))
      [] [] ['1', '0'] ['2', '0'] ['5', '0'] ['0', '0']
      (by decide) (by decide) (by decide) (by decide) (by decide) (by decide)
      (by decide) (by decide) rfl).2,
   by decide, by decide, by decide⟩

/-- C2: the extractor returns the empty mapping exactly when no position of
the text matches the `Resolved:` pattern (and it is a total function of the
text: every input yields a result, a non-match merely omits the keys). -/
theorem c2_no_match_empty_mapping (content : List Char) :
    get_metrics_from_summary content = [] ↔
      ∀ i, matchResolvedAt (content.drop i) = none := by
  rw [← reSearch_none_iff]
  constructor
  · intro h
    cases hr : reSearch content with
    | none => rfl
    | some g =>
      rw [metrics_of_search_some content g hr] at h
      cases h
  · exact metrics_of_search_none content

/-- C3: when the file at `<experiment_dir>/artifacts/summary_stats.md` does
not exist, `main` prints `Error: Summary file not found at <path>` and exits
with status 1, without computing any metrics. -/
theorem c3_missing_file (dir : String) (fs : String → Option (List Char))
    (h : fs (summaryPath dir) = none) :
    main dir fs =
      some ⟨1, ["Error: Summary file not found at " ++ summaryPath dir]⟩ := by
  simp [main, h]

theorem c3_missing_file_witness :
    main "exp" (fun _ => none) =
      some ⟨1, ["Error: Summary file not found at " ++ summaryPath "exp"]⟩ ∧
    "Error: Summary file not found at " ++ summaryPath "exp" =
      "Error: Summary file not found at exp/artifacts/summary_stats.md" :=
  ⟨c3_missing_file "exp" (fun _ => none) rfl, by decide⟩

/-- C4: when the file exists but the extractor returns an empty mapping,
`main` prints `Error: Could not parse any metrics from <path>` and exits
with status 1. -/
theorem c4_no_metrics_parsed (dir : String) (fs : String → Option (List Char))
    (content : List Char) (hf : fs (summaryPath dir) = some content)
    (hm : get_metrics_from_summary content = []) :
    main dir fs =
      some ⟨1, ["Error: Could not parse any metrics from " ++ summaryPath dir]⟩
    := by
  simp [main, hf, hm]

theorem c4_no_metrics_parsed_witness :
    main "exp" (fun _ => some ("no useful data here".toList)) =
      some ⟨1, ["Error: Could not parse any metrics from " ++
        summaryPath "exp"]⟩ :=
  c4_no_metrics_parsed "exp" (fun _ => some ("no useful data here".toList))
    ("no useful data here".toList) rfl (by decide)

/-- C5: on the success path (the file exists and the extractor result is
non-empty) `main` exits with status 0 and prints the header, then — exactly
because `success_rate` is present — the
`  Success Rate: <rate to 2 decimals>% (<count>/<total>)` line, then the
`Metrics (JSON):` header (preceded by a blank line) and the indented JSON
dump of the whole mapping. -/
theorem c5_success_path (dir : String) (fs : String → Option (List Char))
    (content : List Char) (hf : fs (summaryPath dir) = some content)
    (hm : get_metrics_from_summary content ≠ []) :
    hasKey "success_rate" (get_metrics_from_summary content) = true ∧
    ∃ g : RGroups, reSearch content = some g ∧
      main dir fs = some ⟨0,
        ["SWE-bench Evaluation Results:",
         "  Success Rate: " ++ fmt2 (decVal g.g3i g.g3f) ++ "% (" ++
           natStr (digitsToNat g.g1) ++ "/" ++ natStr (digitsToNat g.g2) ++
           ")",
         "\nMetrics (JSON):",
         jsonDumps (get_metrics_from_summary content)]⟩ := by
  cases hr : reSearch content with
  | none => exact absurd (metrics_of_search_none content hr) hm
  | some g =>
    have hmm := metrics_of_search_some content g hr
    refine ⟨by rw [hmm]; rfl, g, rfl, ?_⟩
    simp only [main, hf, hmm]
    rfl

theorem c5_success_path_witness :
    hasKey "success_rate"
      (get_metrics_from_summary ("Resolved: 10 / 20 50.00%".toList)) = true ∧
    ∃ g : RGroups, reSearch ("Resolved: 10 / 20 50.00%".toList) = some g ∧
      main "exp" (fun _ => some ("Resolved: 10 / 20 50.00%".toList)) =
        some ⟨0,
          ["SWE-bench Evaluation Results:",
           "  Success Rate: " ++ fmt2 (decVal g.g3i g.g3f) ++ "% (" ++
             natStr (digitsToNat g.g1) ++ "/" ++ natStr (digitsToNat g.g2) ++
             ")",
           "\nMetrics (JSON):",
           jsonDumps (get_metrics_from_summary
             ("Resolved: 10 / 20 50.00%".toList))]⟩ :=
  c5_success_path "exp" (fun _ => some ("Resolved: 10 / 20 50.00%".toList))
    ("Resolved: 10 / 20 50.00%".toList) rfl (by decide)

/-- C6: on the file content `Resolved: 0 / 0 0.00%` the extractor returns
the all-zero mapping — a non-empty dict, so the no-metrics error branch is
not taken — and `main` succeeds with exit status 0, printing
`  Success Rate: 0.00% (0/0)` and the JSON dump. -/
theorem c6_zero_values_not_absence :
    get_metrics_from_summary ("Resolved: 0 / 0 0.00%".toList) =
      [("resolved_count", PyVal.int 0), ("resolved_total", PyVal.int 0),
       ("success_rate", PyVal.float 0)] ∧
    main "exp" (fun _ => some ("Resolved: 0 / 0 0.00%".toList)) =
      some ⟨0,
        ["SWE-bench Evaluation Results:",
         "  Success Rate: 0.00% (0/0)",
         "\nMetrics (JSON):",
         "\x7b\n  \"resolved_count\": 0,\n  \"resolved_total\": 0,\n  \"success_rate\": 0.0\n\x7d"]⟩ := by
  constructor <;> decide

/-- C7: a success rate written with a zero fractional part, as in
`Resolved: 100 / 100 100.0%`, is accepted by the pattern (one digit after
the decimal point suffices) and yields `success_rate = 100.0`. -/
theorem c7_zero_fraction_accepted :
    get_metrics_from_summary ("Resolved: 100 / 100 100.0%".toList) =
      [("resolved_count", PyVal.int 100), ("resolved_total", PyVal.int 100),
       ("success_rate", PyVal.float 100)] := by decide

/-- C8: the orchestrator is deterministic — its result is a function of the
experiment directory and of the content stored at the resolved summary path
alone: two filesystems agreeing on that one path give identical results. -/
theorem c8_deterministic (dir : String) (fs₁ fs₂ : String → Option (List Char))
    (h : fs₁ (summaryPath dir) = fs₂ (summaryPath dir)) :
    main dir fs₁ = main dir fs₂ := by
  simp only [main, h]

theorem c8_deterministic_witness :
    main "d" (fun _ => none) =
      main "d" (fun p => if p = "other" then some ['a'] else none) :=
  c8_deterministic "d" (fun _ => none)
    (fun p => if p = "other" then some ['a'] else none) (by decide)

/-- C9: key-coupling invariant — the extractor output contains either all
three of `resolved_count`, `resolved_total`, `success_rate` (in that order)
or none of them; hence when `success_rate` is present, the two other
lookups performed by the success-rate print line cannot fail. -/
theorem c9_key_coupling (content : List Char) :
    (hasKey "success_rate" (get_metrics_from_summary content) = true →
      hasKey "resolved_count" (get_metrics_from_summary content) = true ∧
      hasKey "resolved_total" (get_metrics_from_summary content) = true) ∧
    (get_metrics_from_summary content = [] ∨
      (get_metrics_from_summary content).map Prod.fst =
        ["resolved_count", "resolved_total", "success_rate"]) := by
  cases hr : reSearch content with
  | none =>
    rw [metrics_of_search_none content hr]
    exact ⟨fun h => absurd h (by decide), Or.inl rfl⟩
  | some g =>
    rw [metrics_of_search_some content g hr]
    exact ⟨fun _ => ⟨rfl, rfl⟩, Or.inr rfl⟩

theorem c9_key_coupling_witness :
    hasKey "resolved_count"
      (get_metrics_from_summary ("Resolved: 1 / 2 3.5%".toList)) = true ∧
    hasKey "resolved_total"
      (get_metrics_from_summary ("Resolved: 1 / 2 3.5%".toList)) = true :=
  (c9_key_coupling ("Resolved: 1 / 2 3.5%".toList)).1 (by decide)

/-- C10 counterexample: on `Resolved: 10 / 2050.00%` the extractor does not
return `resolved_count = 10`, `resolved_total = 20`, `success_rate = 50.0`
as the claim states. -/
theorem c10_counterexample :
    get_metrics_from_summary ("Resolved: 10 / 2050.00%".toList) ≠
      [("resolved_count", PyVal.int 10), ("resolved_total", PyVal.int 20),
       ("success_rate", PyVal.float 50)] := by decide

/-- C10 (amended): the pattern separates tokens with optional whitespace
including newlines, so `Resolved: 10 /\n20 30.5%` matches across the line
break, yielding 10, 20 and 30.5; adjacent numeric tokens need not be
separated at all, but then greedy backtracking splits the digit run so that
the float group still starts with a digit: `Resolved: 10 / 2050.00%` yields
`resolved_count = 10`, `resolved_total = 205`, `success_rate = 0.0`. -/
theorem c10_amended_whitespace_and_backtracking :
    get_metrics_from_summary ("Resolved: 10 / 2050.00%".toList) =
      [("resolved_count", PyVal.int 10), ("resolved_total", PyVal.int 205),
       ("success_rate", PyVal.float 0)] ∧
    get_metrics_from_summary ("Resolved: 10 /\n20 30.5%".toList) =
      [("resolved_count", PyVal.int 10), ("resolved_total", PyVal.int 20),
       ("success_rate", PyVal.float (mkRat 61 2))] := by
  constructor <;> decide

end EvalSweBench
